import Mathlib

/-!
Verification of the CEMS Arduino sensor pipeline.

Shallow embedding of the repository's core functions:
* `arduino_sensor.py` — `SerialDataReader.safe_decode`, `SensorDataParser.parse_sensor_data`,
  `SensorDatabase.save_sensor_data` (with `check_connection` / `reconnect` / status helpers),
  and the counter logic of the `read_arduino_data` ingestion loop;
* `routers/api_v1/endpoints/data.py` — `read_latest_data` (cache), `get_data`,
  and the per-connection `event_generator` of the `/replace` stream.

Python strings are modelled as lists of Unicode code points (`List Nat`), byte strings as
lists of byte values (`List Nat`).  Database and network effects are modelled by explicit
state passing with injected outcome flags.
-/

/-- Code points that Python's `str.strip()` (and `str.isspace`) treats as whitespace. -/
def pyIsSpace (c : Nat) : Bool :=
  (9 ≤ c && c ≤ 13) || (0x1c ≤ c && c ≤ 0x20) || c = 0x85 || c = 0xa0 ||
  c = 0x1680 || (0x2000 ≤ c && c ≤ 0x200a) || c = 0x2028 || c = 0x2029 ||
  c = 0x202f || c = 0x205f || c = 0x3000

/-- Model of Python `str.strip()`: drop leading and trailing whitespace code points. -/
def pyStrip (s : List Nat) : List Nat :=
  ((s.dropWhile pyIsSpace).reverse.dropWhile pyIsSpace).reverse

/-- UTF-8 continuation byte test (`0x80..0xBF`). -/
def utf8Cont (b : Nat) : Bool := 0x80 ≤ b && b ≤ 0xbf

/-- Classify a UTF-8 lead byte: `some (continuations needed, lower/upper bound of the first
continuation byte, initial accumulator)`, or `none` for an invalid lead byte.  The bounds
encode the shortest-form and surrogate/range restrictions enforced by Python's decoder. -/
def utf8Lead (b : Nat) : Option (Nat × Nat × Nat × Nat) :=
  if b ≤ 0x7f then some (0, 0, 0, b)
  else if 0xc2 ≤ b && b ≤ 0xdf then some (1, 0x80, 0xbf, b - 0xc0)
  else if b = 0xe0 then some (2, 0xa0, 0xbf, 0)
  else if b = 0xed then some (2, 0x80, 0x9f, 0xd)
  else if 0xe1 ≤ b && b ≤ 0xef then some (2, 0x80, 0xbf, b - 0xe0)
  else if b = 0xf0 then some (3, 0x90, 0xbf, 0)
  else if 0xf1 ≤ b && b ≤ 0xf3 then some (3, 0x80, 0xbf, b - 0xf0)
  else if b = 0xf4 then some (3, 0x80, 0x8f, 4)
  else none

/-- Decode one scalar (or one maximal ill-formed subpart) starting at byte `b` with tail
`rest`; returns the scalar (or `none` on a decode error) and the remaining bytes. -/
def utf8Step (b : Nat) (rest : List Nat) : Option Nat × List Nat :=
  match utf8Lead b with
  | none => (none, rest)
  | some (need, lo2, hi2, acc) =>
    match need, rest with
    | 0, _ => (some acc, rest)
    | Nat.succ _, [] => (none, rest)
    | Nat.succ n1, b2 :: r2 =>
      if !(lo2 ≤ b2 && b2 ≤ hi2) then (none, rest)
      else
        match n1, r2 with
        | 0, _ => (some (acc * 64 + (b2 - 0x80)), r2)
        | Nat.succ _, [] => (none, r2)
        | Nat.succ n2, b3 :: r3 =>
          if !utf8Cont b3 then (none, r2)
          else
            match n2, r3 with
            | 0, _ => (some ((acc * 64 + (b2 - 0x80)) * 64 + (b3 - 0x80)), r3)
            | Nat.succ _, [] => (none, r3)
            | Nat.succ _, b4 :: r4 =>
              if !utf8Cont b4 then (none, r3)
              else (some (((acc * 64 + (b2 - 0x80)) * 64 + (b3 - 0x80)) * 64 + (b4 - 0x80)), r4)

/-- Fueled UTF-8 decoding loop; on a decode error it emits `repl` (if given) and resumes
after the ill-formed subpart, mirroring `bytes.decode('utf-8', errors='ignore'/'replace')`.
The fuel is set to the input length by the wrappers, which suffices since every step
consumes at least one byte. -/
def utf8Go (repl : Option Nat) : Nat → List Nat → List Nat
  | _, [] => []
  | 0, _ :: _ => []
  | Nat.succ fuel, b :: rest =>
    match utf8Step b rest with
    | (some v, r) => v :: utf8Go repl fuel r
    | (none, r) =>
      match repl with
      | some rc => rc :: utf8Go repl fuel r
      | none => utf8Go repl fuel r

/-- Model of `raw.decode('utf-8', errors='ignore')`. -/
def utf8DecodeIgnore (raw : List Nat) : List Nat := utf8Go none raw.length raw

/-- Model of `raw.decode('utf-8', errors='replace')`. -/
def utf8DecodeReplace (raw : List Nat) : List Nat := utf8Go (some 0xfffd) raw.length raw

/-- Modelled from the spec: the Big5 codec invoked by `raw_data.decode('big5',
errors='ignore')` is Python-stdlib code outside this repository (the spec only says
"attempt decode under an ordered list of candidate encodings").  Structural model: ASCII
bytes decode to themselves; a lead byte `0xA1..0xF9` followed by a trail byte
`0x40..0x7E` or `0xA1..0xFE` decodes to an injectively chosen CJK code point (with the
ideographic space `0xA1 0x40 ↦ U+3000` special-cased, since the result feeds
`str.strip()`); invalid bytes are ignored. -/
def big5Go : Nat → List Nat → List Nat
  | _, [] => []
  | 0, _ :: _ => []
  | Nat.succ fuel, b :: rest =>
    if b ≤ 0x7f then b :: big5Go fuel rest
    else if 0xa1 ≤ b && b ≤ 0xf9 then
      match rest with
      | [] => []
      | b2 :: r2 =>
        if (0x40 ≤ b2 && b2 ≤ 0x7e) || (0xa1 ≤ b2 && b2 ≤ 0xfe) then
          (if b = 0xa1 && b2 = 0x40 then 0x3000 else 0x20000 + b * 256 + b2) :: big5Go fuel r2
        else big5Go fuel rest
    else big5Go fuel rest

/-- Model of `raw.decode('big5', errors='ignore')` (see `big5Go`). -/
def big5DecodeIgnore (raw : List Nat) : List Nat := big5Go raw.length raw

/-- Modelled from the spec: the GB2312 codec invoked by `raw_data.decode('gb2312',
errors='ignore')` is Python-stdlib code outside this repository.  Structural model: ASCII
bytes decode to themselves; a lead byte `0xA1..0xF7` followed by a trail byte `0xA1..0xFE`
decodes to an injectively chosen CJK code point (with `0xA1 0xA1 ↦ U+3000` special-cased);
invalid bytes are ignored. -/
def gb2312Go : Nat → List Nat → List Nat
  | _, [] => []
  | 0, _ :: _ => []
  | Nat.succ fuel, b :: rest =>
    if b ≤ 0x7f then b :: gb2312Go fuel rest
    else if 0xa1 ≤ b && b ≤ 0xf7 then
      match rest with
      | [] => []
      | b2 :: r2 =>
        if 0xa1 ≤ b2 && b2 ≤ 0xfe then
          (if b = 0xa1 && b2 = 0xa1 then 0x3000 else 0x30000 + b * 256 + b2) :: gb2312Go fuel r2
        else gb2312Go fuel rest
    else gb2312Go fuel rest

/-- Model of `raw.decode('gb2312', errors='ignore')` (see `gb2312Go`). -/
def gb2312DecodeIgnore (raw : List Nat) : List Nat := gb2312Go raw.length raw

/-- Model of `raw.decode('ascii', errors='ignore')`: bytes `≥ 0x80` are dropped. -/
def asciiDecodeIgnore (raw : List Nat) : List Nat := raw.filter (fun b => b ≤ 0x7f)

/-- Model of `raw.decode('latin1', errors='ignore')`: every byte maps to the code point of
the same value, nothing is ever dropped. -/
def latin1Decode (raw : List Nat) : List Nat := raw

/-- Predicate of the fallback cleaning in `safe_decode` (and of the spec's control-character
guarantee): code point `≥ 32`, or tab / newline / carriage return. -/
def controlOk (c : Nat) : Bool := 32 ≤ c || c = 9 || c = 10 || c = 13

/-- Model of `''.join(char for char in decoded if ord(char) >= 32 or char in ['\t','\n','\r'])`,
the cleaning applied in `safe_decode`'s final fallback branch. -/
def cleanPrintable (s : List Nat) : List Nat := s.filter controlOk

/-- Model of `SerialDataReader.safe_decode` (arduino_sensor.py lines 69-98): empty input
returns empty immediately; otherwise the first of utf-8 / big5 / gb2312 / ascii / latin1
(each with `errors='ignore'`) whose stripped decode is non-empty is returned; then utf-8
with `errors='replace'`; finally latin1 with the control characters cleaned.  None of the
`decode(..., errors=...)` calls can raise, so the `try`/`except` wrappers reduce to this
chain. -/
def safe_decode (raw : List Nat) : List Nat :=
  if raw = [] then []
  else if pyStrip (utf8DecodeIgnore raw) ≠ [] then pyStrip (utf8DecodeIgnore raw)
  else if pyStrip (big5DecodeIgnore raw) ≠ [] then pyStrip (big5DecodeIgnore raw)
  else if pyStrip (gb2312DecodeIgnore raw) ≠ [] then pyStrip (gb2312DecodeIgnore raw)
  else if pyStrip (asciiDecodeIgnore raw) ≠ [] then pyStrip (asciiDecodeIgnore raw)
  else if pyStrip (latin1Decode raw) ≠ [] then pyStrip (latin1Decode raw)
  else if pyStrip (utf8DecodeReplace raw) ≠ [] then pyStrip (utf8DecodeReplace raw)
  else cleanPrintable (pyStrip (latin1Decode raw))





/-- Convert a Lean string literal to the code-point list model of a Python `str`. -/
def strD (s : String) : List Nat := s.data.map Char.toNat

/-- ASCII lower-casing of one code point, modelling the case folding relevant to
`re.IGNORECASE` on the ASCII-only pattern literals and to `str.lower()`. -/
def toLowerA (c : Nat) : Nat := if 65 ≤ c && c ≤ 90 then c + 32 else c

/-- ASCII decimal digit test, modelling `\d` of the patterns. -/
def isDigitA (c : Nat) : Bool := 48 ≤ c && c ≤ 57

/-- Match a literal pattern case-insensitively at the head of the input; on success return
the remaining input. -/
def litCI : List Nat → List Nat → Option (List Nat)
  | [], cs => some cs
  | _ :: _, [] => none
  | p :: ps, c :: cs => if toLowerA c = toLowerA p then litCI ps cs else none

/-- Consume one optional occurrence of code point `ch` (regex `x?`). -/
def optChar (ch : Nat) : List Nat → List Nat
  | [] => []
  | c :: cs => if c = ch then cs else c :: cs

/-- Capture of `(-?\d+)`: optional minus sign, then one or more digits (greedy). -/
def stripMinus (cs : List Nat) : Bool × List Nat :=
  if cs.head? = some 45 then (true, cs.tail) else (false, cs)

/-- Unsigned part of the capture of `(-?\d+)`: a non-empty greedy run of digits. -/
def captureIntBody (r : List Nat) : Option (List Nat) :=
  if r.takeWhile isDigitA = [] then none else some (r.takeWhile isDigitA)

/-- Capture of `(-?\d+)` via `stripMinus` (the regex's optional sign). -/
def captureInt (cs : List Nat) : Option (List Nat) :=
  let sm := stripMinus cs
  (captureIntBody sm.2).map (fun cap => if sm.1 then 45 :: cap else cap)

/-- Unsigned part of the capture of `(-?\d+\.?\d*)`: one or more digits, an optional dot,
then zero or more digits (all greedy; the character classes are disjoint from the
following literals, so maximal munch coincides with the backtracking semantics). -/
def captureFloatBody (r : List Nat) : Option (List Nat) :=
  if r.takeWhile isDigitA = [] then none
  else if (r.dropWhile isDigitA).head? = some 46 then
    some (r.takeWhile isDigitA ++ 46 :: (r.dropWhile isDigitA).tail.takeWhile isDigitA)
  else some (r.takeWhile isDigitA)

/-- Capture of `(-?\d+\.?\d*)` via `stripMinus` (the regex's optional sign). -/
def captureFloat (cs : List Nat) : Option (List Nat) :=
  let sm := stripMinus cs
  (captureFloatBody sm.2).map (fun cap => if sm.1 then 45 :: cap else cap)

/-- Attempt the pattern `pH[_\s]*value:?\s*(-?\d+\.?\d*)` (IGNORECASE) at the head of the
input; on success return the captured group. -/
def matchPHAt (cs : List Nat) : Option (List Nat) :=
  (litCI (strD "ph") cs).bind fun r1 =>
  (litCI (strD "value") (r1.dropWhile (fun c => c = 95 || pyIsSpace c))).bind fun r3 =>
  captureFloat ((optChar 58 r3).dropWhile pyIsSpace)

/-- Attempt the pattern `ORP:?\s*(-?\d+)` (IGNORECASE) at the head of the input. -/
def matchORPAt (cs : List Nat) : Option (List Nat) :=
  (litCI (strD "orp") cs).bind fun r1 =>
  captureInt ((optChar 58 r1).dropWhile pyIsSpace)

/-- Attempt the pattern `(?:Turbidity|NTU):?\s*(-?\d+)` (IGNORECASE) at the head of the
input; the `Turbidity` alternative is tried first, as in the regex engine. -/
def matchNTUAt (cs : List Nat) : Option (List Nat) :=
  match (litCI (strD "turbidity") cs).bind
      (fun r1 => captureInt ((optChar 58 r1).dropWhile pyIsSpace)) with
  | some cap => some cap
  | none =>
    (litCI (strD "ntu") cs).bind fun r1 =>
    captureInt ((optChar 58 r1).dropWhile pyIsSpace)

/-- Model of `re.search`: try the matcher at each start position from the left and return
the first capture. -/
def searchFirst (m : List Nat → Option (List Nat)) : List Nat → Option (List Nat)
  | [] => m []
  | c :: cs =>
    match m (c :: cs) with
    | some cap => some cap
    | none => searchFirst m cs

/-- Numeric value of a list of ASCII digit code points. -/
def digitsVal (ds : List Nat) : Nat := ds.foldl (fun a d => a * 10 + (d - 48)) 0

/-- Model of `int(text)` on a captured `-?\d+` group: an optional minus sign followed by
a non-empty all-digit body. -/
def intOfCapture (cap : List Nat) : Option Int :=
  let sm := stripMinus cap
  if sm.2 ≠ [] && sm.2.all isDigitA then
    some (if sm.1 then -(digitsVal sm.2 : Int) else (digitsVal sm.2 : Int))
  else none

/-- Unsigned syntactic shape accepted by `float(text)` for the regex captures of this
program: a non-empty run of digits, optionally a dot and a (possibly empty) all-digit
tail.  Returns `(integer digits, fraction digits)`. -/
def floatShapeBody (body : List Nat) : Option (List Nat × List Nat) :=
  if body.takeWhile isDigitA = [] then none
  else if body.dropWhile isDigitA = [] then some (body.takeWhile isDigitA, [])
  else if (body.dropWhile isDigitA).head? = some 46 &&
      (body.dropWhile isDigitA).tail.all isDigitA then
    some (body.takeWhile isDigitA, (body.dropWhile isDigitA).tail)
  else none

/-- Syntactic shape accepted by `float(text)` for the regex captures of this program:
optional minus sign, then a `floatShapeBody`.  Returns `(sign, integer digits, fraction
digits)`. -/
def floatShape (cap : List Nat) : Option (Bool × List Nat × List Nat) :=
  let sm := stripMinus cap
  (floatShapeBody sm.2).map (fun pr => (sm.1, pr.1, pr.2))

/-- Exact rational value of a decimal literal given as sign, integer digits and fraction
digits. -/
def decToRat (neg : Bool) (ds fs : List Nat) : Rat :=
  let q : Rat := (digitsVal ds : Rat) + (digitsVal fs : Rat) / (10 : Rat) ^ fs.length
  if neg then -q else q

/-- Model of `float(text)` on a captured `-?\d+\.?\d*` group, as an exact rational. -/
def ratOfCapture (cap : List Nat) : Option Rat :=
  (floatShape cap).map (fun t => decToRat t.1 t.2.1 t.2.2)

/-- Model of the control-character cleaning in `parse_sensor_data`
(`''.join(c for c in data_string if ord(c) >= 32 or c in '\t\n\r')`) — the same filter as
`cleanPrintable`. -/
def cleanData (s : List Nat) : List Nat := s.filter controlOk

/-- Standalone acidity extractor, one field of `parse_sensor_data`: search the cleaned text
for the pH pattern and parse the capture with `float`. -/
def extract_acidity (s : List Nat) : Option Rat :=
  (searchFirst matchPHAt (cleanData s)).bind ratOfCapture

/-- Standalone redox-potential extractor: search the cleaned text for the ORP pattern and
parse the capture with `int`. -/
def extract_redox (s : List Nat) : Option Int :=
  (searchFirst matchORPAt (cleanData s)).bind intOfCapture

/-- Standalone turbidity extractor: search the cleaned text for the Turbidity/NTU pattern
and parse the capture with `int`. -/
def extract_turbidity (s : List Nat) : Option Int :=
  (searchFirst matchNTUAt (cleanData s)).bind intOfCapture

/-- Model of `SensorDataParser.parse_sensor_data` (arduino_sensor.py lines 136-169):
falsy input returns `(None, None, None)`; otherwise the input is cleaned once and the
three patterns are searched in sequence, each `try: value = cast(match.group(1))`
modelled by the `Option`-valued capture parsers. -/
def parse_sensor_data (s : List Nat) : Option Rat × Option Int × Option Int :=
  if s = [] then (none, none, none)
  else
    ((searchFirst matchPHAt (cleanData s)).bind ratOfCapture,
     (searchFirst matchORPAt (cleanData s)).bind intOfCapture,
     (searchFirst matchNTUAt (cleanData s)).bind intOfCapture)




/-- Substring containment, modelling Python's `in` operator on strings. -/
def containsSub (pat s : List Nat) : Bool :=
  (List.range (s.length + 1)).any (fun i => (s.drop i).take pat.length = pat)

/-- Model of the system-message test in the ingestion loop (arduino_sensor.py line 506):
`"初始化" in raw_data or "sensor" in raw_data.lower()`. -/
def isSystemMessage (s : List Nat) : Bool :=
  containsSub (strD "初始化") s || containsSub (strD "sensor") (s.map toLowerA)



/-- One iteration of the error-counter logic of `read_arduino_data` (arduino_sensor.py
lines 435-508) on a non-empty decoded line: a parsed line resets the counter; an
unparsable line increments it, then the loop breaks if the counter reached
`max_consecutive_errors = 10`, and only afterwards a recognized system message resets the
counter.  `none` models the `break` (abort). -/
def ingestStep (c : Nat) (line : List Nat) : Option Nat :=
  match parse_sensor_data line with
  | (none, none, none) =>
    if c + 1 ≥ 10 then none
    else if isSystemMessage line then some 0
    else some (c + 1)
  | _ => some 0

/-- Run the ingestion-loop counter over a list of decoded lines starting from counter `c`;
`none` means the loop aborted while processing the lines, otherwise the final counter is
returned. -/
def runIngest : Nat → List (List Nat) → Option Nat
  | c, [] => some c
  | c, l :: ls =>
    match ingestStep c l with
    | none => none
    | some c2 => runIngest c2 ls

/-- Persisted row of the `sensor_readings` table, as assembled by
`SensorDatabase.save_sensor_data` (timestamps and the serial id are server-assigned and
not modelled). -/
structure Row where
  ph : Option Rat
  orp : Option Int
  ntu : Option Int
  phStatus : Option String
  orpStatus : Option String
  wqg : Option Bool
deriving DecidableEq

/-- Model of `SensorDatabase._get_ph_status` (arduino_sensor.py lines 340-347); the labels
are the source's strings, reading acidic / alkaline / neutral. -/
def get_ph_status (ph : Rat) : String :=
  if ph < 6.5 then "酸性" else if ph > 7.5 then "鹼性" else "中性"

/-- Model of `SensorDatabase._get_orp_status` (lines 349-358); the labels read strongly
oxidizing / oxidizing / weakly oxidizing / reducing. -/
def get_orp_status (orp : Int) : String :=
  if orp > 650 then "強氧化性" else if orp > 300 then "氧化性"
  else if orp > 0 then "弱氧化性" else "還原性"

/-- Model of `SensorDatabase._is_water_quality_good` (lines 360-365): `None` when either
input is `None`, else the conjunction of the two range checks. -/
def is_water_quality_good : Option Rat → Option Int → Option Bool
  | some p, some o =>
    some (decide ((6.5 : Rat) ≤ p) && decide (p ≤ (8.5 : Rat)) &&
      decide ((200 : Int) ≤ o) && decide (o ≤ (800 : Int)))
  | _, _ => none

/-- Row assembled by `save_sensor_data` (lines 296-317): statuses computed only for present
values (`... if x is not None else None`), quality flag from both optional inputs. -/
def mkRow (ph : Option Rat) (orp : Option Int) (ntu : Option Int) : Row :=
  { ph := ph, orp := orp, ntu := ntu,
    phStatus := ph.map get_ph_status,
    orpStatus := orp.map get_orp_status,
    wqg := is_water_quality_good ph orp }

/-- Row that the ingestion loop (lines 435-480) submits for a decoded line: the loop calls
`db.save_sensor_data` only inside the branch requiring at least one extracted value;
`none` means no save call happens for this line. -/
def savedRow (line : List Nat) : Option Row :=
  match parse_sensor_data line with
  | (ph, orp, ntu) =>
    if ph ≠ none ∨ orp ≠ none ∨ ntu ≠ none then some (mkRow ph orp ntu) else none

/-- Injected outcomes of the database operations used by one `save_sensor_data` call:
whether `check_connection`'s round-trip succeeds, whether `reconnect` succeeds, and
whether the INSERT execute / commit / post-commit verification SELECT raise a
`psycopg2.Error`. -/
structure DBEnv where
  checkOk : Bool
  reconnectOk : Bool
  insertOk : Bool
  commitOk : Bool
  verifyOk : Bool
deriving DecidableEq

/-- Transactional store state: committed rows and the uncommitted rows of the open
transaction. -/
structure DBState where
  committed : List Row
  pending : List Row
deriving DecidableEq

/-- Result of one `save_sensor_data` call: the returned boolean, the number of reconnect
attempts made, and the store state afterwards.  The call always returns (the `except
Error` handler catches every database error), so no exception outcome exists. -/
structure SaveOutcome where
  success : Bool
  reconnects : Nat
  state : DBState
deriving DecidableEq

/-- Outcome of the `try` block of `save_sensor_data` before the `except Error` handler:
either a return value or an escaped `psycopg2.Error`. -/
inductive BodyResult where
  | ret (b : Bool) (st : DBState) (recon : Nat)
  | raisedErr (st : DBState) (recon : Nat)
deriving DecidableEq

/-- The write part of `save_sensor_data`'s `try` block (lines 301-332): execute the INSERT
(staging the row in the open transaction), commit, then run the verification SELECT; any
of the three may raise. -/
def save_try_write (env : DBEnv) (st : DBState) (row : Row) (recon : Nat) : BodyResult :=
  if !env.insertOk then .raisedErr st recon
  else if !env.commitOk then .raisedErr ⟨st.committed, st.pending ++ [row]⟩ recon
  else if !env.verifyOk then .raisedErr ⟨st.committed ++ st.pending ++ [row], []⟩ recon
  else .ret true ⟨st.committed ++ st.pending ++ [row], []⟩ recon

/-- The full `try` block of `save_sensor_data` (lines 282-332): if `check_connection`
fails, make exactly one `reconnect` attempt and return `False` if it fails; otherwise
proceed to the write. -/
def save_body (env : DBEnv) (st : DBState) (row : Row) : BodyResult :=
  if env.checkOk then save_try_write env st row 0
  else if env.reconnectOk then save_try_write env st row 1
  else .ret false st 1

/-- Model of `connection.rollback()`: discard the uncommitted rows. -/
def rollbackSt (st : DBState) : DBState := ⟨st.committed, []⟩

/-- Model of `SensorDatabase.save_sensor_data` (arduino_sensor.py lines 280-338): run the
`try` block; on a `psycopg2.Error` roll back and return `False`. -/
def save_sensor_data (env : DBEnv) (st : DBState) (ph : Option Rat) (orp : Option Int)
    (ntu : Option Int) : SaveOutcome :=
  match save_body env st (mkRow ph orp ntu) with
  | .ret b st2 r => ⟨b, r, st2⟩
  | .raisedErr st2 r => ⟨false, r, rollbackSt st2⟩

/-- The `latest_data` dictionary built by `read_latest_data` from the fetched row: each
field is a string (`str(value)`) or `None`. -/
structure LatestData where
  timestamp : Option String
  ph : Option String
  orp : Option String
  ntu : Option String
deriving DecidableEq

/-- Dictionary returned by `read_latest_data` (data.py lines 58-107), one constructor per
distinct key shape of the source: the error dictionary, the empty-table dictionary
(`message`/`data` keys), and the success dictionary (`status`/`latest_data`/`last_updated`
keys, the latter carrying the fetch time). -/
inductive ApiResult where
  | errorRes (msg : String)
  | emptyRes
  | successRes (d : LatestData) (lastUpdated : Rat)
deriving DecidableEq

/-- Top-level keys of each result dictionary, as written in the source. -/
def resKeys : ApiResult → List String
  | .errorRes _ => ["error"]
  | .emptyRes => ["message", "data"]
  | .successRes _ _ => ["status", "latest_data", "last_updated"]

/-- Injected outcome of the store round trip made by one `read_latest_data` call:
connection refused, query raising, empty table, or a fetched row. -/
inductive DbOutcome where
  | noConn
  | queryFail (msg : String)
  | noRow
  | row (d : LatestData)
deriving DecidableEq

/-- The module-level cache variables `cached_data` and `last_cache_time` (data.py lines
39-40); times are modelled as rational seconds. -/
structure CacheState where
  cachedData : Option ApiResult
  lastCacheTime : Option Rat
deriving DecidableEq

/-- The cache-validity test of `read_latest_data` (lines 64-65): both cache variables set
and `now - last_cache_time < cache_duration` (5 seconds). -/
def cacheValid (now : Rat) (st : CacheState) : Bool :=
  match st.cachedData, st.lastCacheTime with
  | some _, some t => decide (now - t < 5)
  | _, _ => false

/-- The store-facing part of `read_latest_data` (lines 68-107), reached on a cache miss:
connection failure and query failure return error dictionaries and leave the cache
untouched; an empty table returns the message dictionary and leaves the cache untouched;
a fetched row builds the success dictionary and installs it as the new cache entry.  The
third component records whether a store query was executed. -/
def read_fresh (now : Rat) (db : DbOutcome) (st : CacheState) :
    ApiResult × CacheState × Bool :=
  match db with
  | .noConn => (.errorRes "無法連接到資料庫", st, false)
  | .queryFail m => (.errorRes (String.append "讀取數據時發生錯誤: " m), st, true)
  | .noRow => (.emptyRes, st, true)
  | .row d => (.successRes d now, ⟨some (.successRes d now), some now⟩, true)

/-- Model of `read_latest_data` (data.py lines 58-107): return the cached dictionary when
the cache is valid, otherwise go to the store. -/
def read_latest_data (now : Rat) (db : DbOutcome) (st : CacheState) :
    ApiResult × CacheState × Bool :=
  match st.cachedData, st.lastCacheTime with
  | some d, some t => if now - t < 5 then (d, st, false) else read_fresh now db st
  | some d, none => read_fresh now db ⟨some d, none⟩
  | none, t => read_fresh now db ⟨none, t⟩

/-- Outcome of the `GET /data` handler: an `HTTPException` or the returned dictionary with
the appended `total_records` count. -/
inductive GetDataOut where
  | httpError (code : Nat) (detail : String)
  | ok (r : ApiResult) (total : Nat)
deriving DecidableEq

/-- Model of `get_data` (data.py lines 164-175): raise a 500 `HTTPException` iff the
result dictionary has an `error` key, else attach `total_records` and return it. -/
def get_data (r : ApiResult) (total : Nat) : GetDataOut :=
  if "error" ∈ resKeys r then
    .httpError 500 (match r with | .errorRes m => m | _ => "")
  else .ok r total

/-- Rendering of an optional string field inside `str(latest_data)`. -/
def strOfOpt : Option String → String
  | none => "None"
  | some s => String.append (String.append "'" s) "'"

/-- Modelled from the spec: the structural fingerprint `str(latest_data)` is produced by
Python's stdlib dict rendering, outside this repository ("a structural fingerprint of the
payload").  The model renders the four fields in dict order; it is injective on payloads
and, like CPython's rendering, never equal to a bare ISO timestamp string. -/
def strOfLatest (d : LatestData) : String :=
  String.intercalate ", "
    [String.append "'timestamp': " (strOfOpt d.timestamp),
     String.append "'ph_value': " (strOfOpt d.ph),
     String.append "'orp_value': " (strOfOpt d.orp),
     String.append "'ntu_value': " (strOfOpt d.ntu)]

/-- The identity key computed by `event_generator` (data.py lines 201-208): for a success
dictionary, the reading's timestamp when present and truthy, else the payload fingerprint;
no key (`None`) for dictionaries without a `latest_data` entry. -/
def keyOf : ApiResult → Option String
  | .successRes ld _ =>
    some (match ld.timestamp with
          | some ts => if ts ≠ "" then ts else strOfLatest ld
          | none => strOfLatest ld)
  | _ => none

/-- Server-sent event emitted by the `/replace` stream: a data event carrying
`latest_data`, or an in-band error event. -/
inductive Event where
  | dataEvent (d : LatestData)
  | errorEvent (msg : String)
deriving DecidableEq

/-- One polling iteration of `event_generator` (data.py lines 185-233) on the dictionary
returned by `read_latest_data`: an error dictionary emits an error event unconditionally
and leaves the last-sent key unchanged; otherwise an event is emitted only when the
identity key differs from the last-sent key, and the `KeyError` raised while building the
response for a dictionary without `latest_data` is caught by the outer handler, which
emits an error event and leaves the key unchanged. -/
def stream_step (last : Option String) (r : ApiResult) : List Event × Option String :=
  match r with
  | .errorRes m => ([.errorEvent m], last)
  | r2 =>
    if keyOf r2 ≠ last then
      match r2 with
      | .successRes ld _ => ([.dataEvent ld], keyOf r2)
      | _ => ([.errorEvent "串流發生錯誤: KeyError"], last)
    else ([], last)

/-- Run `event_generator` iterations over a list of successive `read_latest_data`
results, starting from last-sent key `last` (a fresh connection starts at `none`). -/
def runStream (last : Option String) : List ApiResult → List Event × Option String
  | [] => ([], last)
  | r :: rs =>
    let p := stream_step last r
    let q := runStream p.2 rs
    (p.1 ++ q.1, q.2)

/-- Number of data events in an emitted event list. -/
def countDataEvents (evs : List Event) : Nat :=
  (evs.filter (fun e => match e with | .dataEvent _ => true | _ => false)).length

/-! Helper lemmas shared by the claim theorems. -/

theorem cleanPrintable_all_controlOk (s : List Nat) :
    (cleanPrintable s).all controlOk = true := by
  rw [List.all_eq_true]
  intro c hc
  exact (List.mem_filter.mp hc).2

/-- C1. The claim that `safe_decode` always returns a string free of control characters
below 32 (other than tab/newline/CR) is false: the bytes `61 01 62` decode successfully
as UTF-8 in the first loop iteration and `safe_decode` returns the string unchanged, with
the interior control character `U+0001` intact. -/
theorem safe_decode_control_char_counterexample :
    safe_decode [97, 1, 98] = [97, 1, 98] ∧
    (safe_decode [97, 1, 98]).all controlOk = false := by decide

/-- C1 (amended). For every byte sequence `safe_decode` returns a defined string without
raising; empty input returns the empty string immediately; and the control-character
guarantee holds only for the final latin1 fallback branch (reached when every earlier
decode strips to empty), whose cleaning removes every code point below 32 other than
tab/newline/CR — a string returned by an earlier successful decode is only stripped of
leading and trailing whitespace. -/
theorem safe_decode_amended :
    safe_decode [] = [] ∧
    (∀ s : List Nat, (cleanPrintable s).all controlOk = true) ∧
    (∀ raw : List Nat,
      pyStrip (utf8DecodeIgnore raw) = [] →
      pyStrip (big5DecodeIgnore raw) = [] →
      pyStrip (gb2312DecodeIgnore raw) = [] →
      pyStrip (asciiDecodeIgnore raw) = [] →
      pyStrip (latin1Decode raw) = [] →
      pyStrip (utf8DecodeReplace raw) = [] →
      safe_decode raw = cleanPrintable (pyStrip (latin1Decode raw)) ∧
      (safe_decode raw).all controlOk = true) := by
  refine ⟨rfl, cleanPrintable_all_controlOk, ?_⟩
  intro raw h1 h2 h3 h4 h5 h6
  have heq : safe_decode raw = cleanPrintable (pyStrip (latin1Decode raw)) := by
    by_cases hr : raw = []
    · subst hr; rfl
    · simp [safe_decode, hr, h1, h2, h3, h4, h5, h6]
  exact ⟨heq, heq ▸ cleanPrintable_all_controlOk _⟩

/-- C1 (amended, witness). Concrete instantiation of `safe_decode_amended`: the all-blank
input `[32]` reaches the fallback branch, and the cleaning filter passes the bell
character test. -/
theorem safe_decode_amended_witness :
    safe_decode [] = [] ∧
    (cleanPrintable [7, 65]).all controlOk = true ∧
    safe_decode [32] = cleanPrintable (pyStrip (latin1Decode [32])) :=
  ⟨safe_decode_amended.1,
   safe_decode_amended.2.1 [7, 65],
   (safe_decode_amended.2.2 [32] (by decide) (by decide) (by decide) (by decide)
     (by decide) (by decide)).1⟩

/-- C2. The claim that a system-message line never counts toward nor triggers the
10-failure abort is false: after 9 unparsable non-system lines, a 10th unparsable line
that IS a recognized system message (`"sensor ready"`) still increments the counter to 10
and aborts the loop, because the abort check precedes the system-message reset. -/
theorem ingest_system_message_counterexample :
    runIngest 0 (List.replicate 9 (strD "hello") ++ [strD "sensor ready"]) = none ∧
    isSystemMessage (strD "sensor ready") = true ∧
    parse_sensor_data (strD "sensor ready") = (none, none, none) := by decide

/-- C2 (amended). The ingestion loop aborts exactly when an unparsable line (system
message or not) brings the consecutive-failure counter to the threshold 10; below the
threshold, a system-message line resets the counter to 0 and any other unparsable line
leaves it incremented; a parsed line always resets the counter to 0. -/
theorem ingest_counter_amended :
    ∀ (c : Nat) (line : List Nat),
      (parse_sensor_data line = (none, none, none) →
        (ingestStep c line = none ↔ 10 ≤ c + 1) ∧
        (c + 1 < 10 →
          ingestStep c line = some (if isSystemMessage line then 0 else c + 1))) ∧
      (parse_sensor_data line ≠ (none, none, none) → ingestStep c line = some 0) := by
  intro c line
  constructor
  · intro hp
    constructor
    · simp only [ingestStep, hp]
      by_cases h : 10 ≤ c + 1
      · simp [h]
      · by_cases hs : isSystemMessage line <;> simp [h, hs]
    · intro hlt
      have h : ¬ (c + 1 ≥ 10) := by omega
      simp only [ingestStep, hp]
      by_cases hs : isSystemMessage line <;> simp [h, hs]
  · intro hne
    simp only [ingestStep]

/-- C2 (amended, witness). Concrete instantiation of `ingest_counter_amended`: at counter
9 the system message `"sensor ready"` aborts; at counter 3 it resets to 0; a parsed line
(`"NTU: 5"`) resets to 0. -/
theorem ingest_counter_amended_witness :
    ingestStep 9 (strD "sensor ready") = none ∧
    ingestStep 3 (strD "sensor ready") =
      some (if isSystemMessage (strD "sensor ready") then 0 else 3 + 1) ∧
    ingestStep 7 (strD "NTU: 5") = some 0 :=
  ⟨((ingest_counter_amended 9 (strD "sensor ready")).1 (by decide)).1.mpr (by omega),
   ((ingest_counter_amended 3 (strD "sensor ready")).1 (by decide)).2 (by omega),
   (ingest_counter_amended 7 (strD "NTU: 5")).2 (by decide)⟩

/-- C3. Every row submitted for persistence by the ingestion loop has at least one of the
three measurements non-null (the loop only calls `save_sensor_data` inside the branch
requiring at least one extracted value), and a line from which only turbidity was
extracted is persisted with null acidity, null redox, null statuses and null
water-quality flag. -/
theorem saved_row_never_all_null :
    (∀ (line : List Nat) (r : Row), savedRow line = some r →
      (r.ph ≠ none ∨ r.orp ≠ none ∨ r.ntu ≠ none)) ∧
    (∀ (line : List Nat) (n : Int), parse_sensor_data line = (none, none, some n) →
      savedRow line = some { ph := none, orp := none, ntu := some n,
                             phStatus := none, orpStatus := none, wqg := none }) := by
  constructor
  · intro line r h
    rcases hp : parse_sensor_data line with ⟨ph, orp, ntu⟩
    simp only [savedRow, hp] at h
    by_cases hc : ph ≠ none ∨ orp ≠ none ∨ ntu ≠ none
    · rw [if_pos hc] at h
      obtain rfl : mkRow ph orp ntu = r := Option.some.inj h
      simpa [mkRow] using hc
    · rw [if_neg hc] at h
      exact absurd h (by simp)
  · intro line n h
    simp [savedRow, h, mkRow, is_water_quality_good]

/-- C3 (witness). Concrete instantiation of `saved_row_never_all_null`: the line
`"NTU: 5"` parses to turbidity only and is persisted with every other field null, and the
persisted row indeed has a non-null measurement. -/
theorem saved_row_never_all_null_witness :
    savedRow (strD "NTU: 5") = some { ph := none, orp := none, ntu := some 5,
                                      phStatus := none, orpStatus := none, wqg := none } ∧
    (({ ph := none, orp := none, ntu := some 5, phStatus := none, orpStatus := none,
        wqg := none } : Row).ph ≠ none ∨
     ({ ph := none, orp := none, ntu := some 5, phStatus := none, orpStatus := none,
        wqg := none } : Row).orp ≠ none ∨
     ({ ph := none, orp := none, ntu := some 5, phStatus := none, orpStatus := none,
        wqg := none } : Row).ntu ≠ none) :=
  ⟨saved_row_never_all_null.2 (strD "NTU: 5") 5 (by decide),
   saved_row_never_all_null.1 (strD "NTU: 5") _
     (saved_row_never_all_null.2 (strD "NTU: 5") 5 (by decide))⟩

/-- C4. `save_sensor_data` verifies the connection first; a passing check means no
reconnect attempt, a failing check means exactly one; if both the check and the reconnect
fail the call returns failure with the store untouched (the reading is dropped); if the
reconnect succeeds the append proceeds exactly as with a healthy connection, committing
the row when the write operations succeed.  The call always returns a result (the
`except Error` handler catches every database error), never an exception. -/
theorem save_reconnect_semantics :
    ∀ (env : DBEnv) (st : DBState) (ph : Option Rat) (orp : Option Int) (ntu : Option Int),
      (env.checkOk = true → (save_sensor_data env st ph orp ntu).reconnects = 0) ∧
      (env.checkOk = false → (save_sensor_data env st ph orp ntu).reconnects = 1) ∧
      (env.checkOk = false → env.reconnectOk = false →
        (save_sensor_data env st ph orp ntu).success = false ∧
        (save_sensor_data env st ph orp ntu).state = st) ∧
      (env.checkOk = false → env.reconnectOk = true →
        (save_sensor_data env st ph orp ntu).success =
          (save_sensor_data { env with checkOk := true } st ph orp ntu).success ∧
        (save_sensor_data env st ph orp ntu).state =
          (save_sensor_data { env with checkOk := true } st ph orp ntu).state) ∧
      (env.checkOk = false → env.reconnectOk = true → env.insertOk = true →
        env.commitOk = true → env.verifyOk = true →
        (save_sensor_data env st ph orp ntu).success = true ∧
        (save_sensor_data env st ph orp ntu).state =
          ⟨st.committed ++ st.pending ++ [mkRow ph orp ntu], []⟩) := by
  intro env st ph orp ntu
  obtain ⟨c, r, i, co, v⟩ := env
  cases c <;> cases r <;> cases i <;> cases co <;> cases v <;>
    simp [save_sensor_data, save_body, save_try_write, rollbackSt]

/-- C4 (witness). Concrete instantiation of `save_reconnect_semantics`: one injected
connection failure followed by a healthy reconnect appends the row; check and reconnect
both failing drops the reading with a failure result and one reconnect attempt. -/
theorem save_reconnect_semantics_witness :
    (save_sensor_data ⟨false, true, true, true, true⟩ ⟨[], []⟩ none none (some 5)).success
      = true ∧
    (save_sensor_data ⟨false, true, true, true, true⟩ ⟨[], []⟩ none none (some 5)).state
      = ⟨[] ++ [] ++ [mkRow none none (some 5)], []⟩ ∧
    (save_sensor_data ⟨false, false, true, true, true⟩ ⟨[], []⟩ none none (some 5)).success
      = false ∧
    (save_sensor_data ⟨false, false, true, true, true⟩ ⟨[], []⟩ none none (some 5)).state
      = ⟨[], []⟩ ∧
    (save_sensor_data ⟨false, false, true, true, true⟩ ⟨[], []⟩ none none (some 5)).reconnects
      = 1 :=
  ⟨((save_reconnect_semantics ⟨false, true, true, true, true⟩ ⟨[], []⟩ none none
      (some 5)).2.2.2.2 rfl rfl rfl rfl rfl).1,
   ((save_reconnect_semantics ⟨false, true, true, true, true⟩ ⟨[], []⟩ none none
      (some 5)).2.2.2.2 rfl rfl rfl rfl rfl).2,
   ((save_reconnect_semantics ⟨false, false, true, true, true⟩ ⟨[], []⟩ none none
      (some 5)).2.2.1 rfl rfl).1,
   ((save_reconnect_semantics ⟨false, false, true, true, true⟩ ⟨[], []⟩ none none
      (some 5)).2.2.1 rfl rfl).2,
   (save_reconnect_semantics ⟨false, false, true, true, true⟩ ⟨[], []⟩ none none
      (some 5)).2.1 rfl⟩

/-- C5. Starting from a state with no open transaction, a `save_sensor_data` call is
atomic: afterwards the committed table either gained exactly the full assembled row or is
unchanged, no transaction is left open, a `True` return guarantees the row was committed,
and a failed INSERT is rolled back with a failure report and no new row. -/
theorem save_atomic :
    ∀ (env : DBEnv) (st : DBState) (ph : Option Rat) (orp : Option Int) (ntu : Option Int),
      st.pending = [] →
      ((save_sensor_data env st ph orp ntu).state.committed
          = st.committed ++ [mkRow ph orp ntu] ∨
        (save_sensor_data env st ph orp ntu).state.committed = st.committed) ∧
      (save_sensor_data env st ph orp ntu).state.pending = [] ∧
      ((save_sensor_data env st ph orp ntu).success = true →
        (save_sensor_data env st ph orp ntu).state.committed
          = st.committed ++ [mkRow ph orp ntu]) ∧
      (env.insertOk = false →
        (save_sensor_data env st ph orp ntu).success = false ∧
        (save_sensor_data env st ph orp ntu).state.committed = st.committed) := by
  intro env st ph orp ntu hp
  obtain ⟨c, r, i, co, v⟩ := env
  cases c <;> cases r <;> cases i <;> cases co <;> cases v <;>
    simp [save_sensor_data, save_body, save_try_write, rollbackSt, hp]

/-- C5 (witness). Concrete instantiation of `save_atomic`: with a healthy connection and
a failing INSERT the call reports failure and commits nothing, and with all operations
healthy the returned success implies the row is in the table. -/
theorem save_atomic_witness :
    ((save_sensor_data ⟨true, true, false, true, true⟩ ⟨[], []⟩ none none (some 5)).success
        = false ∧
      (save_sensor_data ⟨true, true, false, true, true⟩ ⟨[], []⟩ none none
        (some 5)).state.committed = []) ∧
    (save_sensor_data ⟨true, true, false, true, true⟩ ⟨[], []⟩ none none
      (some 5)).state.pending = [] ∧
    ((save_sensor_data ⟨true, true, true, true, true⟩ ⟨[], []⟩ none none (some 5)).success
        = true →
      (save_sensor_data ⟨true, true, true, true, true⟩ ⟨[], []⟩ none none
        (some 5)).state.committed = [] ++ [mkRow none none (some 5)]) :=
  ⟨(save_atomic ⟨true, true, false, true, true⟩ ⟨[], []⟩ none none (some 5) rfl).2.2.2 rfl,
   (save_atomic ⟨true, true, false, true, true⟩ ⟨[], []⟩ none none (some 5) rfl).2.1,
   (save_atomic ⟨true, true, true, true, true⟩ ⟨[], []⟩ none none (some 5) rfl).2.2.1⟩

/-- C6. Threshold characterization of the derived labels at write time: acidity status is
acidic (`"酸性"`) iff acidity `< 6.5`, alkaline (`"鹼性"`) iff `> 7.5`, neutral
(`"中性"`) otherwise, and null when acidity is absent; redox status follows the `> 650` /
`> 300` / `> 0` / else chain and is null when redox is absent; the water-quality flag is
true iff acidity `∈ [6.5, 8.5]` and redox `∈ [200, 800]`, false iff both are present and
the conjunction fails, and null when either input is absent — in particular null acidity
with redox 900 gives null, not false. -/
theorem status_thresholds :
    (∀ p : Rat,
      (get_ph_status p = "酸性" ↔ p < 6.5) ∧
      (get_ph_status p = "鹼性" ↔ p > 7.5) ∧
      (get_ph_status p = "中性" ↔ (6.5 ≤ p ∧ p ≤ 7.5))) ∧
    (∀ o : Int,
      (get_orp_status o = "強氧化性" ↔ o > 650) ∧
      (get_orp_status o = "氧化性" ↔ (300 < o ∧ o ≤ 650)) ∧
      (get_orp_status o = "弱氧化性" ↔ (0 < o ∧ o ≤ 300)) ∧
      (get_orp_status o = "還原性" ↔ o ≤ 0)) ∧
    (∀ (orp : Option Int) (ntu : Option Int), (mkRow none orp ntu).phStatus = none) ∧
    (∀ (p : Rat) (orp : Option Int) (ntu : Option Int),
      (mkRow (some p) orp ntu).phStatus = some (get_ph_status p)) ∧
    (∀ (ph : Option Rat) (ntu : Option Int), (mkRow ph none ntu).orpStatus = none) ∧
    (∀ (ph : Option Rat) (o : Int) (ntu : Option Int),
      (mkRow ph (some o) ntu).orpStatus = some (get_orp_status o)) ∧
    (∀ (p : Rat) (o : Int),
      (is_water_quality_good (some p) (some o) = some true ↔
        (6.5 ≤ p ∧ p ≤ 8.5 ∧ 200 ≤ o ∧ o ≤ 800)) ∧
      (is_water_quality_good (some p) (some o) = some false ↔
        ¬ (6.5 ≤ p ∧ p ≤ 8.5 ∧ 200 ≤ o ∧ o ≤ 800))) ∧
    (∀ (ph : Option Rat) (orp : Option Int),
      ph = none ∨ orp = none → is_water_quality_good ph orp = none) ∧
    is_water_quality_good none (some 900) = none := by
  refine ⟨?_, ?_, ?_, ?_, ?_, ?_, ?_, ?_, rfl⟩
  · intro p
    by_cases h1 : p < 6.5
    · have e : get_ph_status p = "酸性" := by simp [get_ph_status, h1]
      rw [e]
      exact ⟨⟨fun _ => h1, fun _ => rfl⟩,
        ⟨fun h => absurd h (by decide), fun h => (by linarith : False).elim⟩,
        ⟨fun h => absurd h (by decide), fun h => absurd h.1 (not_le.mpr h1)⟩⟩
    · by_cases h2 : p > 7.5
      · have e : get_ph_status p = "鹼性" := by simp [get_ph_status, h1, h2]
        rw [e]
        exact ⟨⟨fun h => absurd h (by decide), fun h => (by linarith : False).elim⟩,
          ⟨fun _ => h2, fun _ => rfl⟩,
          ⟨fun h => absurd h (by decide), fun h => absurd h.2 (not_le.mpr h2)⟩⟩
      · have e : get_ph_status p = "中性" := by simp [get_ph_status, h1, h2]
        rw [e]
        push_neg at h1 h2
        exact ⟨⟨fun h => absurd h (by decide), fun h => absurd h (not_lt.mpr h1)⟩,
          ⟨fun h => absurd h (by decide), fun h => absurd h (not_lt.mpr h2)⟩,
          ⟨fun _ => ⟨h1, h2⟩, fun _ => rfl⟩⟩
  · intro o
    unfold get_orp_status
    split_ifs with h1 h2 h3 <;>
      refine ⟨?_, ?_, ?_, ?_⟩ <;>
      simp_all [show ("強氧化性" : String) ≠ "氧化性" from by decide,
        show ("強氧化性" : String) ≠ "弱氧化性" from by decide,
        show ("強氧化性" : String) ≠ "還原性" from by decide,
        show ("氧化性" : String) ≠ "弱氧化性" from by decide,
        show ("氧化性" : String) ≠ "還原性" from by decide,
        show ("弱氧化性" : String) ≠ "還原性" from by decide] <;> omega
  · intro orp ntu; rfl
  · intro p orp ntu; rfl
  · intro ph ntu; cases ph <;> rfl
  · intro ph o ntu; cases ph <;> rfl
  · intro p o
    constructor
    · simp [is_water_quality_good, Bool.and_eq_true, decide_eq_true_eq, and_assoc]
    · rw [show (is_water_quality_good (some p) (some o) = some false) ↔
        ¬ (is_water_quality_good (some p) (some o) = some true) from ?_]
      · simp [is_water_quality_good, Bool.and_eq_true, decide_eq_true_eq, and_assoc]
      · cases hb : is_water_quality_good (some p) (some o) with
        | none => simp [is_water_quality_good] at hb
        | some b => cases b <;> simp
  · intro ph orp h
    rcases h with h | h
    · subst h; rfl
    · subst h; cases ph <;> rfl

/-- C6 (witness). Concrete instantiation of `status_thresholds`: acidity 7 is neutral,
redox 400 is oxidizing, the pair (7, 400) gives a true quality flag, acidity 5 with redox
400 gives a false one, and null acidity with redox 900 gives a null flag. -/
theorem status_thresholds_witness :
    get_ph_status 7 = "中性" ∧
    get_orp_status 400 = "氧化性" ∧
    is_water_quality_good (some 7) (some 400) = some true ∧
    is_water_quality_good (some 5) (some 400) = some false ∧
    is_water_quality_good none (some 900) = none :=
  ⟨(status_thresholds.1 7).2.2.mpr (by norm_num),
   ((status_thresholds.2.1 400).2.1).mpr (by norm_num),
   ((status_thresholds.2.2.2.2.2.2.1 7 400).1).mpr (by norm_num),
   ((status_thresholds.2.2.2.2.2.2.1 5 400).2).mpr (by norm_num),
   status_thresholds.2.2.2.2.2.2.2.1 none (some 900) (Or.inl rfl)⟩

theorem takeWhile_all_true (p : Nat → Bool) (l : List Nat) :
    (l.takeWhile p).all p = true := by
  rw [List.all_eq_true]
  intro x hx
  exact List.mem_takeWhile_imp hx

theorem takeWhile_append_stop (p : Nat → Bool) (l : List Nat) (x : Nat) (r : List Nat)
    (hl : l.all p = true) (hx : p x = false) :
    (l ++ x :: r).takeWhile p = l := by
  induction l with
  | nil => simp [List.takeWhile_cons, hx]
  | cons a t ih =>
    rw [List.all_cons, Bool.and_eq_true] at hl
    simp [List.takeWhile_cons, hl.1, ih hl.2]

theorem dropWhile_append_stop (p : Nat → Bool) (l : List Nat) (x : Nat) (r : List Nat)
    (hl : l.all p = true) (hx : p x = false) :
    (l ++ x :: r).dropWhile p = x :: r := by
  induction l with
  | nil => simp [List.dropWhile_cons, hx]
  | cons a t ih =>
    rw [List.all_cons, Bool.and_eq_true] at hl
    simp [List.dropWhile_cons, hl.1, ih hl.2]

theorem takeWhile_of_all (p : Nat → Bool) (l : List Nat) (h : l.all p = true) :
    l.takeWhile p = l := by
  rw [List.takeWhile_eq_self_iff]
  intro x hx
  exact (List.all_eq_true.mp h) x hx

theorem dropWhile_of_all (p : Nat → Bool) (l : List Nat) (h : l.all p = true) :
    l.dropWhile p = [] := by
  rw [List.dropWhile_eq_nil_iff]
  intro x hx
  exact (List.all_eq_true.mp h) x hx

theorem captureFloatBody_shape (r cap : List Nat) (h : captureFloatBody r = some cap) :
    (∃ pr, floatShapeBody cap = some pr) ∧ ∃ d t, cap = d :: t ∧ isDigitA d = true := by
  unfold captureFloatBody at h
  by_cases hds : r.takeWhile isDigitA = []
  · simp [hds] at h
  · rw [if_neg hds] at h
    obtain ⟨d, ds', hd⟩ : ∃ d ds', r.takeWhile isDigitA = d :: ds' := by
      cases hh : r.takeWhile isDigitA with
      | nil => exact absurd hh hds
      | cons a t => exact ⟨a, t, rfl⟩
    have hdall : (r.takeWhile isDigitA).all isDigitA = true := takeWhile_all_true _ _
    have hddig : isDigitA d = true := by
      rw [hd, List.all_cons, Bool.and_eq_true] at hdall
      exact hdall.1
    by_cases hdot : (r.dropWhile isDigitA).head? = some 46
    · rw [if_pos hdot] at h
      obtain rfl : r.takeWhile isDigitA ++ 46 :: (r.dropWhile isDigitA).tail.takeWhile isDigitA
          = cap := Option.some.inj h
      have hfs : ((r.dropWhile isDigitA).tail.takeWhile isDigitA).all isDigitA = true :=
        takeWhile_all_true _ _
      refine ⟨⟨(r.takeWhile isDigitA, (r.dropWhile isDigitA).tail.takeWhile isDigitA), ?_⟩,
        d, ds' ++ 46 :: (r.dropWhile isDigitA).tail.takeWhile isDigitA, ?_, hddig⟩
      · unfold floatShapeBody
        rw [takeWhile_append_stop _ _ _ _ hdall (by decide),
          dropWhile_append_stop _ _ _ _ hdall (by decide)]
        simp [hds, hfs]
      · rw [hd]; rfl
    · rw [if_neg hdot] at h
      obtain rfl : r.takeWhile isDigitA = cap := Option.some.inj h
      refine ⟨⟨(r.takeWhile isDigitA, []), ?_⟩, d, ds', hd, hddig⟩
      · unfold floatShapeBody
        rw [takeWhile_of_all _ _ hdall, dropWhile_of_all _ _ hdall]
        simp [hds]

theorem captureFloat_parses (cs cap : List Nat) (h : captureFloat cs = some cap) :
    ∃ v, ratOfCapture cap = some v := by
  unfold captureFloat at h
  rw [Option.map_eq_some'] at h
  obtain ⟨cap0, hbody, hcap⟩ := h
  obtain ⟨⟨pr, hpr⟩, d, t, hdt, hdig⟩ := captureFloatBody_shape _ _ hbody
  by_cases hs : (stripMinus cs).1
  · rw [if_pos hs] at hcap
    subst hcap
    refine ⟨decToRat true pr.1 pr.2, ?_⟩
    have hsm : stripMinus (45 :: cap0) = (true, cap0) := by
      unfold stripMinus; rfl
    simp [ratOfCapture, floatShape, hsm, hpr]
  · rw [if_neg hs] at hcap
    subst hcap
    refine ⟨decToRat false pr.1 pr.2, ?_⟩
    have hne : cap0.head? ≠ some 45 := by
      rw [hdt]
      intro hcontra
      have : d = 45 := by simpa using hcontra
      subst this
      exact absurd hdig (by decide)
    have hsm : stripMinus cap0 = (false, cap0) := by
      unfold stripMinus; rw [if_neg hne]
    simp [ratOfCapture, floatShape, hsm, hpr]

theorem captureInt_parses (cs cap : List Nat) (h : captureInt cs = some cap) :
    ∃ v, intOfCapture cap = some v := by
  unfold captureInt at h
  rw [Option.map_eq_some'] at h
  obtain ⟨cap0, hbody, hcap⟩ := h
  have hds : ¬ ((stripMinus cs).2.takeWhile isDigitA = []) := by
    intro hcontra
    simp [captureIntBody, hcontra] at hbody
  have hcap0 : cap0 = (stripMinus cs).2.takeWhile isDigitA := by
    simp [captureIntBody, hds] at hbody
    exact hbody.symm
  have hall : cap0.all isDigitA = true := hcap0 ▸ takeWhile_all_true _ _
  have hne : cap0 ≠ [] := hcap0 ▸ hds
  obtain ⟨d, t, hdt⟩ : ∃ d t, cap0 = d :: t := by
    cases hh : cap0 with
    | nil => exact absurd hh hne
    | cons a t => exact ⟨a, t, rfl⟩
  have hdig : isDigitA d = true := by
    rw [hdt, List.all_cons, Bool.and_eq_true] at hall
    exact hall.1
  by_cases hs : (stripMinus cs).1
  · rw [if_pos hs] at hcap
    subst hcap
    have hsm : stripMinus (45 :: cap0) = (true, cap0) := by unfold stripMinus; rfl
    exact ⟨-(digitsVal cap0 : Int), by simp [intOfCapture, hsm, hne, hall]⟩
  · rw [if_neg hs] at hcap
    subst hcap
    have hne45 : cap0.head? ≠ some 45 := by
      rw [hdt]
      intro hcontra
      have : d = 45 := by simpa using hcontra
      subst this
      exact absurd hdig (by decide)
    have hsm : stripMinus cap0 = (false, cap0) := by unfold stripMinus; rw [if_neg hne45]
    exact ⟨(digitsVal cap0 : Int), by simp [intOfCapture, hsm, hne, hall]⟩

theorem matchPHAt_parses (cs cap : List Nat) (h : matchPHAt cs = some cap) :
    ∃ v, ratOfCapture cap = some v := by
  unfold matchPHAt at h
  rw [Option.bind_eq_some] at h
  obtain ⟨r1, _, h⟩ := h
  rw [Option.bind_eq_some] at h
  obtain ⟨r3, _, h⟩ := h
  exact captureFloat_parses _ _ h

theorem matchORPAt_parses (cs cap : List Nat) (h : matchORPAt cs = some cap) :
    ∃ v, intOfCapture cap = some v := by
  unfold matchORPAt at h
  rw [Option.bind_eq_some] at h
  obtain ⟨r1, _, h⟩ := h
  exact captureInt_parses _ _ h

theorem matchNTUAt_parses (cs cap : List Nat) (h : matchNTUAt cs = some cap) :
    ∃ v, intOfCapture cap = some v := by
  unfold matchNTUAt at h
  split at h
  · next cap' heq =>
    obtain rfl : cap' = cap := Option.some.inj h
    rw [Option.bind_eq_some] at heq
    obtain ⟨r1, _, heq⟩ := heq
    exact captureInt_parses _ _ heq
  · next heq =>
    rw [Option.bind_eq_some] at h
    obtain ⟨r1, _, h⟩ := h
    exact captureInt_parses _ _ h

theorem searchFirst_pred {m : List Nat → Option (List Nat)} {P : List Nat → Prop}
    (hm : ∀ cs cap, m cs = some cap → P cap) :
    ∀ cs cap, searchFirst m cs = some cap → P cap := by
  intro cs
  induction cs with
  | nil => intro cap h; exact hm [] cap h
  | cons c t ih =>
    intro cap h
    cases hm0 : m (c :: t) with
    | some cap0 =>
      simp only [searchFirst, hm0] at h
      exact hm _ _ (hm0.trans h)
    | none =>
      simp only [searchFirst, hm0] at h
      exact ih _ h

/-- C7. `parse_sensor_data` is a pure function of its input equal, component by component,
to three independent standalone extractors (so the extraction of each field never depends
on the presence of the others, and the returned triple is exactly the matching subset of
the three patterns over the control-character-stripped text); empty input yields all
three null; and every captured group of any of the three patterns parses successfully as
its numeric type, so a present field is always a fully parsed value, never a partial or
garbage one (the `try`/`except` around the casts can never fire). -/
theorem parse_independent_extraction :
    (∀ s : List Nat,
      parse_sensor_data s = (extract_acidity s, extract_redox s, extract_turbidity s)) ∧
    parse_sensor_data [] = (none, none, none) ∧
    (∀ cs cap, searchFirst matchPHAt cs = some cap → ∃ v, ratOfCapture cap = some v) ∧
    (∀ cs cap, searchFirst matchORPAt cs = some cap → ∃ v, intOfCapture cap = some v) ∧
    (∀ cs cap, searchFirst matchNTUAt cs = some cap → ∃ v, intOfCapture cap = some v) := by
  refine ⟨?_, rfl, searchFirst_pred matchPHAt_parses, searchFirst_pred matchORPAt_parses,
    searchFirst_pred matchNTUAt_parses⟩
  intro s
  by_cases h : s = []
  · subst h; rfl
  · simp [parse_sensor_data, extract_acidity, extract_redox, extract_turbidity, h]

/-- C7 (witness). Concrete instantiation of `parse_independent_extraction`: a line with
two of the three patterns parses to exactly the independent extractors' results, and each
concrete capture parses as its numeric type. -/
theorem parse_independent_extraction_witness :
    parse_sensor_data (strD "ORP: 300, NTU: 12") =
      (extract_acidity (strD "ORP: 300, NTU: 12"),
       extract_redox (strD "ORP: 300, NTU: 12"),
       extract_turbidity (strD "ORP: 300, NTU: 12")) ∧
    (∃ v, ratOfCapture (strD "7.25") = some v) ∧
    (∃ v, intOfCapture (strD "300") = some v) ∧
    (∃ v, intOfCapture (strD "12") = some v) :=
  ⟨parse_independent_extraction.1 (strD "ORP: 300, NTU: 12"),
   parse_independent_extraction.2.2.1 (strD "pH value: 7.25") (strD "7.25") (by decide),
   parse_independent_extraction.2.2.2.1 (strD "ORP: 300") (strD "300") (by decide),
   parse_independent_extraction.2.2.2.2 (strD "NTU: 12") (strD "12") (by decide)⟩

/-- C8. Cache behaviour of `read_latest_data`: any call within 5 seconds of the last
successful fetch returns the identical cached dictionary without touching the store and
leaves the cache unchanged (so a second call inside the window returns the same result
again); a call 5 or more seconds after the last successful fetch goes to the store and,
when a row is fetched, installs the fresh result as the new cache entry with the new
timestamp; and a connection or query failure on a cache miss returns an error dictionary
and leaves the cached entry and its timestamp unchanged. -/
theorem cache_window_semantics :
    ∀ (st : CacheState) (d : ApiResult) (t0 now now2 : Rat) (db db2 : DbOutcome),
      (st.cachedData = some d → st.lastCacheTime = some t0 → now - t0 < 5 →
        read_latest_data now db st = (d, st, false) ∧
        (now2 - t0 < 5 →
          read_latest_data now2 db2 (read_latest_data now db st).2.1 = (d, st, false))) ∧
      (st.lastCacheTime = some t0 → ¬ (now - t0 < 5) →
        ∀ ld, read_latest_data now (.row ld) st =
          (.successRes ld now, ⟨some (.successRes ld now), some now⟩, true)) ∧
      (cacheValid now st = false →
        read_latest_data now .noConn st = (.errorRes "無法連接到資料庫", st, false) ∧
        (∀ m, read_latest_data now (.queryFail m) st =
          (.errorRes (String.append "讀取數據時發生錯誤: " m), st, true))) := by
  intro st d t0 now now2 db db2
  obtain ⟨cd, ct⟩ := st
  refine ⟨?_, ?_, ?_⟩
  · intro h1 h2 h3
    have h1' : cd = some d := h1
    have h2' : ct = some t0 := h2
    subst h1'
    subst h2'
    have e1 : read_latest_data now db ⟨some d, some t0⟩ = (d, ⟨some d, some t0⟩, false) := by
      simp [read_latest_data, h3]
    refine ⟨e1, fun h4 => ?_⟩
    rw [e1]
    simp [read_latest_data, h4]
  · intro h2 hge ld
    have h2' : ct = some t0 := h2
    subst h2'
    cases cd with
    | some d0 => simp [read_latest_data, hge, read_fresh]
    | none => simp [read_latest_data, read_fresh]
  · intro hcv
    cases cd with
    | none => cases ct <;> simp [read_latest_data, read_fresh]
    | some d0 =>
      cases ct with
      | none => simp [read_latest_data, read_fresh]
      | some t1 =>
        have hlt : ¬ (now - t1 < 5) := by simpa [cacheValid] using hcv
        simp [read_latest_data, hlt, read_fresh]

/-- C8 (witness). Concrete instantiation of `cache_window_semantics`: with an entry
fetched at time 0, calls at times 3 and 4 return the cached entry without a store query;
a call at time 7 with a row outcome replaces the entry; a call at time 7 with a failing
connection returns the error dictionary and leaves the state unchanged. -/
theorem cache_window_semantics_witness :
    read_latest_data 3 .noRow
        ⟨some (.successRes ⟨some "t1", none, none, none⟩ 0), some 0⟩ =
      (.successRes ⟨some "t1", none, none, none⟩ 0,
        ⟨some (.successRes ⟨some "t1", none, none, none⟩ 0), some 0⟩, false) ∧
    read_latest_data 7 (.row ⟨some "t2", none, none, none⟩)
        ⟨some (.successRes ⟨some "t1", none, none, none⟩ 0), some 0⟩ =
      (.successRes ⟨some "t2", none, none, none⟩ 7,
        ⟨some (.successRes ⟨some "t2", none, none, none⟩ 7), some 7⟩, true) ∧
    read_latest_data 7 .noConn
        ⟨some (.successRes ⟨some "t1", none, none, none⟩ 0), some 0⟩ =
      (.errorRes "無法連接到資料庫",
        ⟨some (.successRes ⟨some "t1", none, none, none⟩ 0), some 0⟩, false) :=
  ⟨((cache_window_semantics ⟨some (.successRes ⟨some "t1", none, none, none⟩ 0), some 0⟩
      (.successRes ⟨some "t1", none, none, none⟩ 0) 0 3 4 .noRow .noRow).1 rfl rfl
      (by norm_num)).1,
   (cache_window_semantics ⟨some (.successRes ⟨some "t1", none, none, none⟩ 0), some 0⟩
      (.successRes ⟨some "t1", none, none, none⟩ 0) 0 7 4 .noRow .noRow).2.1 rfl
      (by norm_num) ⟨some "t2", none, none, none⟩,
   ((cache_window_semantics ⟨some (.successRes ⟨some "t1", none, none, none⟩ 0), some 0⟩
      (.successRes ⟨some "t1", none, none, none⟩ 0) 0 7 4 .noRow .noRow).2.2
      (by norm_num [cacheValid])).1⟩

theorem runStream_stationary (r : ApiResult) (k : Option String)
    (hstep : stream_step k r = ([], k)) :
    ∀ n, runStream k (List.replicate n r) = ([], k) := by
  intro n
  induction n with
  | zero => rfl
  | succ m ih => simp [List.replicate_succ, runStream, hstep, ih]

/-- C9. Change detection of the `/replace` stream loop: a data event is emitted only when
the input dictionary is a success dictionary whose identity key (timestamp when present
and truthy, else the payload fingerprint) differs from the last-sent key, and emitting
updates the last-sent key to it; an error dictionary emits an error event unconditionally
on every interval and never updates the last-sent key; and across consecutive polling
intervals returning the same success dictionary with the same timestamp, exactly one data
event is emitted when the timestamp is new and zero when it was already the last-sent
key. -/
theorem stream_change_detection :
    (∀ (last : Option String) (r : ApiResult) (ld : LatestData),
      Event.dataEvent ld ∈ (stream_step last r).1 →
        (∃ t, r = .successRes ld t) ∧ keyOf r ≠ last ∧ (stream_step last r).2 = keyOf r) ∧
    (∀ (last : Option String) (m : String),
      stream_step last (.errorRes m) = ([.errorEvent m], last)) ∧
    (∀ (ld : LatestData) (t : Rat) (ts : String) (n : Nat) (last : Option String),
      ld.timestamp = some ts → ts ≠ "" →
      countDataEvents
          (runStream last (List.replicate (n + 1) (.successRes ld t))).1 =
        if some ts = last then 0 else 1) := by
  refine ⟨?_, fun last m => rfl, ?_⟩
  · intro last r ld hmem
    cases r with
    | errorRes m => simp [stream_step] at hmem
    | emptyRes =>
      by_cases hk : keyOf ApiResult.emptyRes ≠ last <;> simp [stream_step, hk] at hmem
    | successRes ld2 t =>
      by_cases hk : keyOf (ApiResult.successRes ld2 t) ≠ last
      · simp only [stream_step, if_pos hk, List.mem_singleton] at hmem
        obtain rfl : ld = ld2 := by injection hmem
        exact ⟨⟨t, rfl⟩, hk, by simp [stream_step, hk]⟩
      · simp [stream_step, hk] at hmem
  · intro ld t ts n last hts hne
    have hkey : keyOf (ApiResult.successRes ld t) = some ts := by
      simp [keyOf, hts, hne]
    by_cases hlast : some ts = last
    · subst hlast
      have hstep : stream_step (some ts) (ApiResult.successRes ld t) = ([], some ts) := by
        simp [stream_step, hkey]
      rw [runStream_stationary _ _ hstep (n + 1)]
      simp [countDataEvents]
    · have hstep1 : stream_step last (ApiResult.successRes ld t)
          = ([Event.dataEvent ld], some ts) := by
        simp [stream_step, hkey, hlast]
      have hstep2 : stream_step (some ts) (ApiResult.successRes ld t) = ([], some ts) := by
        simp [stream_step, hkey]
      rw [List.replicate_succ]
      simp [runStream, hstep1, runStream_stationary _ _ hstep2 n, countDataEvents,
        if_neg hlast]

/-- C9 (witness). Concrete instantiation of `stream_change_detection`: an emitted data
event comes from a success dictionary with a changed key and updates the key; an error
dictionary always emits an error event without touching the key; and three consecutive
intervals with the same timestamp yield exactly one data event from a fresh connection
and zero when the timestamp was already last sent. -/
theorem stream_change_detection_witness :
    ((∃ t, (ApiResult.successRes ⟨some "t1", none, none, none⟩ 0)
        = .successRes ⟨some "t1", none, none, none⟩ t) ∧
      keyOf (ApiResult.successRes ⟨some "t1", none, none, none⟩ 0) ≠ none ∧
      (stream_step none (ApiResult.successRes ⟨some "t1", none, none, none⟩ 0)).2
        = keyOf (ApiResult.successRes ⟨some "t1", none, none, none⟩ 0)) ∧
    stream_step (some "t1") (.errorRes "down") = ([.errorEvent "down"], some "t1") ∧
    countDataEvents
        (runStream none
          (List.replicate 3 (ApiResult.successRes ⟨some "t1", none, none, none⟩ 0))).1
      = (if some "t1" = (none : Option String) then 0 else 1) ∧
    countDataEvents
        (runStream (some "t1")
          (List.replicate 3 (ApiResult.successRes ⟨some "t1", none, none, none⟩ 0))).1
      = (if some "t1" = some "t1" then 0 else 1) :=
  ⟨stream_change_detection.1 none (ApiResult.successRes ⟨some "t1", none, none, none⟩ 0)
      ⟨some "t1", none, none, none⟩ (by decide),
   stream_change_detection.2.1 (some "t1") "down",
   stream_change_detection.2.2 ⟨some "t1", none, none, none⟩ 0 "t1" 2 none rfl
     (by decide),
   stream_change_detection.2.2 ⟨some "t1", none, none, none⟩ 0 "t1" 2 (some "t1") rfl
     (by decide)⟩

/-- C10. With an empty `sensor_readings` table, a cache-missing `read_latest_data` call
returns the third dictionary shape carrying only `message` and `data` keys (no `error`,
`status` or `latest_data` key) and does not update the cache entry or timestamp; `get_data`
then passes this dictionary through without raising, so `GET /data` answers with a success
HTTP status and a shape matching neither the documented success nor error contract. -/
theorem empty_table_third_shape :
    ∀ (now : Rat) (st : CacheState) (n : Nat),
      cacheValid now st = false →
      read_latest_data now .noRow st = (.emptyRes, st, true) ∧
      ("error" ∉ resKeys ApiResult.emptyRes ∧ "status" ∉ resKeys ApiResult.emptyRes ∧
        "latest_data" ∉ resKeys ApiResult.emptyRes) ∧
      get_data .emptyRes n = .ok .emptyRes n := by
  intro now st n hcv
  obtain ⟨cd, ct⟩ := st
  refine ⟨?_, by decide, ?_⟩
  · cases cd with
    | none => cases ct <;> simp [read_latest_data, read_fresh]
    | some d0 =>
      cases ct with
      | none => simp [read_latest_data, read_fresh]
      | some t1 =>
        have hlt : ¬ (now - t1 < 5) := by simpa [cacheValid] using hcv
        simp [read_latest_data, hlt, read_fresh]
  · unfold get_data
    rw [if_neg (by decide : ¬ ("error" ∈ resKeys ApiResult.emptyRes))]

/-- C10 (witness). Concrete instantiation of `empty_table_third_shape` at time 0 with an
empty cache and a total count of 3. -/
theorem empty_table_third_shape_witness :
    read_latest_data 0 .noRow ⟨none, none⟩ = (.emptyRes, ⟨none, none⟩, true) ∧
    ("error" ∉ resKeys ApiResult.emptyRes ∧ "status" ∉ resKeys ApiResult.emptyRes ∧
      "latest_data" ∉ resKeys ApiResult.emptyRes) ∧
    get_data .emptyRes 3 = .ok .emptyRes 3 :=
  empty_table_third_shape 0 ⟨none, none⟩ 3 rfl
